import Mathlib

/-!
Verification of the KinDA entity-reconciliation and query engine
(`src/kinda/kinda.py`) and the report-generation unit conversion
(`src/kinda/output.py`), via a shallow embedding in Lean 4.

Entity types (Complex, Strand, RestingSet, DetailedReaction,
CondensedReaction) live in the repository's `objects` module, which is not
part of the two source files; their capability surface (identity, names,
membership, `has_reactants` / `has_products` superset semantics) is
modelled from the spec.  The external enumerator (`EnumerateJob`) and the
statistics-assignment step (`stats_utils.make_stats`) are likewise external
collaborators whose outputs are passed in as parameters.

Python `set` objects are modelled as duplicate-free lists (`List.dedup` at
each construction site); Python's iteration order over a set is
unspecified, so the canonical order induced by `dedup` is one faithful
refinement of it.  Claims about sets are stated through `.toFinset`.
-/

namespace KinDA

/-- Modelled from the spec: a Complex is an identity-based molecular
structure with a name (objects module is external to the two source
files). The numeric id gives object identity, so distinct complexes may
share a name. -/
structure Complex where
  id : Nat
  name : String
deriving DecidableEq

/-- Modelled from the spec: a strand, identity-based. -/
structure Strand where
  id : Nat
deriving DecidableEq

/-- Modelled from the spec: a RestingSet groups complexes, has a name and
a set of constituent strands. -/
structure RestingSet where
  id : Nat
  name : String
  strands : List Strand
  complexes : List Complex
deriving DecidableEq

/-- Modelled from the spec: a DetailedReaction has reactant and product
complexes. -/
structure DetailedReaction where
  id : Nat
  reactants : List Complex
  products : List Complex
deriving DecidableEq

/-- Modelled from the spec: a CondensedReaction has reactant and product
resting sets. -/
structure CondensedReaction where
  id : Nat
  reactants : List RestingSet
  products : List RestingSet
deriving DecidableEq

/-- Modelled from the spec: `has_reactants(X)` holds iff every element of
X appears among the reaction's reactants (superset containment, not exact
equality). -/
def CondensedReaction.has_reactants (r : CondensedReaction)
    (xs : List RestingSet) : Bool :=
  xs.all fun x => decide (x ∈ r.reactants)

/-- Modelled from the spec: `has_products(X)` holds iff every element of
X appears among the reaction's products. -/
def CondensedReaction.has_products (r : CondensedReaction)
    (xs : List RestingSet) : Bool :=
  xs.all fun x => decide (x ∈ r.products)

/-- The configuration bit consulted by `System.__init__`
(`kinda_params['enable_unimolecular_reactions']`, kinda.py line 77). -/
structure KindaParams where
  enable_unimolecular_reactions : Bool
deriving DecidableEq

/-- Modelled from the spec: the four output collections of the external
enumeration step (`EnumerateJob`, kinda.py lines 62-72). When enumeration
is enabled these replace the working sets wholesale. -/
structure EnumOut where
  complexes : List Complex
  restingsets : List RestingSet
  reactions : List DetailedReaction
  restingset_reactions : List CondensedReaction

/-- Registry state of a constructed `System` (kinda.py lines 47-98).
Each Python set is a duplicate-free list here.  The statistics mappings
are kept as association lists (Python dicts); a statistics record is
opaque, modelled by `Nat`. -/
structure System where
  complexes : List Complex
  restingsets : List RestingSet
  detailed_reactions : List DetailedReaction
  condensed_reactions : List CondensedReaction
  spurious_restingsets : List RestingSet
  spurious_condensed_reactions : List CondensedReaction
  rs_to_stats : List (RestingSet × Nat)
  rxn_to_stats : List (CondensedReaction × Nat)

/-- kinda.py line 47: `set(condensed_reactions)`. -/
def givenCondensed (condensed : List CondensedReaction) :
    List CondensedReaction :=
  condensed.dedup

/-- kinda.py lines 49-51: resting sets given plus those referenced by the
given condensed reactions. -/
def derivedRestingsets (restingsets : List RestingSet)
    (condensed : List CondensedReaction) : List RestingSet :=
  (restingsets ++
    (givenCondensed condensed).flatMap
      (fun rxn => rxn.reactants ++ rxn.products)).dedup

/-- kinda.py lines 52-55: complexes given, plus those in the (derived)
resting sets, plus those referenced by the given detailed reactions. -/
def derivedComplexes (complexes : List Complex)
    (restingsets : List RestingSet) (detailed : List DetailedReaction)
    (condensed : List CondensedReaction) : List Complex :=
  (complexes ++
    (derivedRestingsets restingsets condensed).flatMap
      RestingSet.complexes ++
    detailed.dedup.flatMap (fun rxn => rxn.reactants ++ rxn.products)).dedup

/-- The condensed-reaction set before the unimolecular filter: the
enumerator's output when enumeration ran (kinda.py line 72), otherwise the
given reactions (line 47). -/
def preFilterCondensed (condensed : List CondensedReaction)
    (enumOut : Option EnumOut) : List CondensedReaction :=
  match enumOut with
  | some out => out.restingset_reactions.dedup
  | none => givenCondensed condensed

/-- kinda.py lines 76-78: if unimolecular reactions are disabled, keep
only condensed reactions with exactly 2 reactants. -/
def filterUnimolecular (params : KindaParams)
    (conds : List CondensedReaction) : List CondensedReaction :=
  if params.enable_unimolecular_reactions then conds
  else conds.filter fun rxn => rxn.reactants.length = 2

/-- Key set of a statistics association list (`dict.keys()`). -/
def statsKeys {α : Type} [DecidableEq α] (stats : List (α × Nat)) :
    List α :=
  (stats.map Prod.fst).dedup

/-- Python set subtraction `a - b` on the list model. -/
def setDiff {α : Type} [DecidableEq α] (a b : List α) : List α :=
  a.filter fun x => decide (x ∉ b)

/-- Python set union `a | b` on the list model. -/
def setUnion {α : Type} [DecidableEq α] (a b : List α) : List α :=
  (a ++ b).dedup

/-- `System.__init__` (kinda.py lines 29-98). `enumOut = some out` models
`enumeration = True` with external enumerator output `out` (lines 57-72,
full replacement of the four working sets); `enumOut = none` models
`enumeration = False`. `rsStats`/`rxnStats` model the output of the
external `stats_utils.make_stats` call (lines 82-90). Lines 93-94 compute
the spurious sets by subtraction. -/
def mkSystem (params : KindaParams) (complexes : List Complex)
    (restingsets : List RestingSet) (detailed : List DetailedReaction)
    (condensed : List CondensedReaction) (enumOut : Option EnumOut)
    (rsStats : List (RestingSet × Nat))
    (rxnStats : List (CondensedReaction × Nat)) : System :=
  let cxs : List Complex :=
    match enumOut with
    | some out => out.complexes.dedup
    | none => derivedComplexes complexes restingsets detailed condensed
  let rsets : List RestingSet :=
    match enumOut with
    | some out => out.restingsets.dedup
    | none => derivedRestingsets restingsets condensed
  let dets : List DetailedReaction :=
    match enumOut with
    | some out => out.reactions.dedup
    | none => detailed.dedup
  let conds : List CondensedReaction :=
    filterUnimolecular params (preFilterCondensed condensed enumOut)
  { complexes := cxs
    restingsets := rsets
    detailed_reactions := dets
    condensed_reactions := conds
    spurious_restingsets := setDiff (statsKeys rsStats) rsets
    spurious_condensed_reactions := setDiff (statsKeys rxnStats) conds
    rs_to_stats := rsStats
    rxn_to_stats := rxnStats }

/-- Python property `System.complexes` (kinda.py lines 134-137). -/
def System.complexes_accessor (s : System) : List Complex :=
  s.complexes

/-- Python property `System.restingsets` (kinda.py lines 139-142): the
known and spurious resting sets together. -/
def System.restingsets_accessor (s : System) : List RestingSet :=
  setUnion s.restingsets s.spurious_restingsets

/-- Python property `System.detailed_reactions` (kinda.py lines 144-147). -/
def System.detailed_reactions_accessor (s : System) :
    List DetailedReaction :=
  s.detailed_reactions

/-- Python property `System.condensed_reactions` (kinda.py lines 149-152):
the known and spurious condensed reactions together. -/
def System.condensed_reactions_accessor (s : System) :
    List CondensedReaction :=
  setUnion s.condensed_reactions s.spurious_condensed_reactions

/-- Reporting channel of the singular accessors and the statistics lookup
(Python `print` of an ERROR / WARNING line; kinda.py lines 183, 186, 220,
223, 237, 240, 252). `ok` means nothing was printed. -/
inductive Report where
  | ok : Report
  | notFound : Report
  | multiple : Report
deriving DecidableEq

/-- `System.get_reactions` (kinda.py lines 158-178).  Python defaults:
`reactants = []`, `products = []`, `arity = 2`, `unproductive = None`,
`spurious = None`. -/
def System.get_reactions (s : System) (reactants products : List RestingSet)
    (arity : Option Nat) (unproductive spurious : Option Bool) :
    List CondensedReaction :=
  let rxns : List CondensedReaction :=
    match spurious with
    | some true => s.spurious_condensed_reactions
    | some false => s.condensed_reactions
    | none => setUnion s.spurious_condensed_reactions s.condensed_reactions
  let rxns : List CondensedReaction :=
    match unproductive with
    | some true => rxns.filter fun x =>
        x.has_reactants x.products && x.has_products x.reactants
    | some false => rxns.filter fun x =>
        !(x.has_reactants x.products && x.has_products x.reactants)
    | none => rxns
  let rxns : List CondensedReaction :=
    match arity with
    | some a => rxns.filter fun x => x.reactants.length = a
    | none => rxns
  rxns.filter fun x => x.has_reactants reactants && x.has_products products

/-- The shared body of the singular accessors (kinda.py lines 182-188,
219-225, 236-242): `len == 0` prints an ERROR and returns `None`;
`len > 1` prints a WARNING; any nonempty result returns element 0. -/
def singularReport {α : Type} (l : List α) : Option α × Report :=
  match l with
  | [] => (none, Report.notFound)
  | [r] => (some r, Report.ok)
  | r :: _ :: _ => (some r, Report.multiple)

/-- `System.get_reaction` (kinda.py lines 179-188). -/
def System.get_reaction (s : System) (reactants products : List RestingSet)
    (arity : Option Nat) (unproductive spurious : Option Bool) :
    Option CondensedReaction × Report :=
  singularReport
    (s.get_reactions reactants products arity unproductive spurious)

/-- `System.get_restingsets` (kinda.py lines 190-216). Python defaults:
`complex = None`, `strands = []`, `name = None`, `complex_name = None`,
`spurious = False`.  `complex in x` and `x.strands` are capabilities of
the external RestingSet type, modelled from the spec as membership in the
constituent complex / strand lists. -/
def System.get_restingsets (s : System) (complex : Option Complex)
    (strands : List Strand) (name : Option String)
    (complex_name : Option String) (spurious : Option Bool) :
    List RestingSet :=
  let rs : List RestingSet :=
    match spurious with
    | some true => s.spurious_restingsets
    | some false => s.restingsets
    | none => setUnion s.restingsets s.spurious_restingsets
  let rs : List RestingSet :=
    match complex with
    | some c => rs.filter fun x => decide (c ∈ x.complexes)
    | none => rs
  let rs : List RestingSet :=
    if strands ≠ [] then
      rs.filter fun x => strands.all fun st => decide (st ∈ x.strands)
    else rs
  let rs : List RestingSet :=
    match name with
    | some n => rs.filter fun x => x.name = n
    | none => rs
  match complex_name with
  | some n => rs.filter fun x => decide (n ∈ x.complexes.map Complex.name)
  | none => rs

/-- `System.get_restingset` (kinda.py lines 217-225): same zero/multiple
reporting convention as `get_reaction`. -/
def System.get_restingset (s : System) (complex : Option Complex)
    (strands : List Strand) (name : Option String)
    (complex_name : Option String) (spurious : Option Bool) :
    Option RestingSet × Report :=
  singularReport
    (s.get_restingsets complex strands name complex_name spurious)

/-- `System.get_complexes` (kinda.py lines 227-233). -/
def System.get_complexes (s : System) (name : Option String) :
    List Complex :=
  match name with
  | some n => s.complexes.filter fun x => x.name = n
  | none => s.complexes

/-- `System.get_complex` (kinda.py lines 234-242). -/
def System.get_complex (s : System) (name : Option String) :
    Option Complex × Report :=
  singularReport (s.get_complexes name)

/-- Association-list lookup, modelling Python `dict` membership and
indexing. -/
def assocLookup {α : Type} [DecidableEq α] (stats : List (α × Nat))
    (k : α) : Option Nat :=
  (stats.find? fun p => decide (p.1 = k)).map Prod.snd

/-- An argument to `get_stats`: a resting set or a condensed reaction. -/
def Entity : Type := Sum RestingSet CondensedReaction

/-- `System.get_stats` (kinda.py lines 244-252): look the object up in
`_rxn_to_stats`, then `_rs_to_stats`; if absent from both, print a
not-found line and return `None`.  A resting set never compares equal to
a reaction key and vice versa, so each variant consults only the mapping
of its own kind. -/
def System.get_stats (s : System) (obj : Entity) : Option Nat × Report :=
  match obj with
  | Sum.inr rxn =>
    match assocLookup s.rxn_to_stats rxn with
    | some v => (some v, Report.ok)
    | none => (none, Report.notFound)
  | Sum.inl rs =>
    match assocLookup s.rs_to_stats rs with
    | some v => (some v, Report.ok)
    | none => (none, Report.notFound)

/-! Method-form embeddings for the frame property: each Python method body
contains only local-variable bindings and reads of `self`, never an
assignment to an attribute of `self`, so its translation as a state
transformer returns the receiver unchanged as the post-state. -/

/-- `get_reactions` as a state transformer (result, post-state). -/
def System.get_reactionsM (s : System)
    (reactants products : List RestingSet) (arity : Option Nat)
    (unproductive spurious : Option Bool) :
    List CondensedReaction × System :=
  (s.get_reactions reactants products arity unproductive spurious, s)

/-- `get_reaction` as a state transformer. -/
def System.get_reactionM (s : System)
    (reactants products : List RestingSet) (arity : Option Nat)
    (unproductive spurious : Option Bool) :
    (Option CondensedReaction × Report) × System :=
  (s.get_reaction reactants products arity unproductive spurious, s)

/-- `get_restingsets` as a state transformer. -/
def System.get_restingsetsM (s : System) (complex : Option Complex)
    (strands : List Strand) (name : Option String)
    (complex_name : Option String) (spurious : Option Bool) :
    List RestingSet × System :=
  (s.get_restingsets complex strands name complex_name spurious, s)

/-- `get_restingset` as a state transformer. -/
def System.get_restingsetM (s : System) (complex : Option Complex)
    (strands : List Strand) (name : Option String)
    (complex_name : Option String) (spurious : Option Bool) :
    (Option RestingSet × Report) × System :=
  (s.get_restingset complex strands name complex_name spurious, s)

/-- `get_complexes` as a state transformer. -/
def System.get_complexesM (s : System) (name : Option String) :
    List Complex × System :=
  (s.get_complexes name, s)

/-- `get_complex` as a state transformer. -/
def System.get_complexM (s : System) (name : Option String) :
    (Option Complex × Report) × System :=
  (s.get_complex name, s)

/-- `get_stats` as a state transformer. -/
def System.get_statsM (s : System) (obj : Entity) :
    (Option Nat × Report) × System :=
  (s.get_stats obj, s)

/-! The report-generation unit conversion, `format_rate_units` inside
`write_pil` (output.py lines 18-47).  Rates are Python floats; the error
behaviour under scrutiny is independent of the numeric type, so rates are
modelled exactly as rationals.  `raise NotImplementedError` is modelled by
`Except.error`. -/

/-- `format_rate_units(rate, arity, molarity, time)` (output.py lines
18-47): scale by the time unit (raising on an unsupported one), then by
the molarity unit (raising on an unsupported one; no scaling when
`arity[0] <= 1`). -/
def format_rate_units (rate : ℚ) (arity : Nat × Nat)
    (molarity time : String) : Except Unit ℚ :=
  let timeScaled : Except Unit ℚ :=
    if time = ("s") then Except.ok rate
    else if time = ("m") then Except.ok (rate * 60)
    else if time = ("h") then Except.ok (rate * 3600)
    else Except.error ()
  match timeScaled with
  | Except.error e => Except.error e
  | Except.ok r =>
    if molarity = ("M") then Except.ok r
    else if molarity = ("mM") then
      Except.ok (if 1 < arity.1 then r / (((arity.1 : ℚ) - 1) * 1000) else r)
    else if molarity = ("uM") then
      Except.ok
        (if 1 < arity.1 then r / (((arity.1 : ℚ) - 1) * 1000000) else r)
    else if molarity = ("nM") then
      Except.ok
        (if 1 < arity.1 then r / (((arity.1 : ℚ) - 1) * 1000000000) else r)
    else Except.error ()

/-- output.py lines 102-116: the temporary-depletion table of `write_pil`.
File output and the statistics values themselves are external I/O; this
models the control flow deciding success.  When `unproductive` is `None`,
for each ordered pair of known resting sets (`get_restingsets` with
`spurious=False`) the body runs
`get_reactions(unproductive=True, reactants=[rms1, rms2])` (so `products =
[]`, `arity = 2`, `spurious = None`) and `assert len(rxns) == 1`; a failed
assertion raises `AssertionError`. -/
def write_pil_depletion_check (s : System) (unproductive : Option Bool) :
    Except String Unit :=
  let restingsets := s.get_restingsets none [] none none (some false)
  match unproductive with
  | none =>
    if restingsets.all (fun rms1 => restingsets.all fun rms2 =>
        decide ((s.get_reactions [rms1, rms2] [] (some 2) (some true)
          none).length = 1)) then
      Except.ok ()
    else Except.error "AssertionError"
  | some _ => Except.ok ()

/-- Modelled from the spec: the closure requirement on the external
enumerator's output — every resting set's complexes and every reaction's
reactant/product entities are present in the returned complex /
resting-set collections. -/
def EnumOutClosed (out : EnumOut) : Prop :=
  (∀ rs ∈ out.restingsets, ∀ c ∈ rs.complexes, c ∈ out.complexes) ∧
  (∀ rxn ∈ out.reactions, ∀ c ∈ rxn.reactants ++ rxn.products,
    c ∈ out.complexes) ∧
  (∀ rxn ∈ out.restingset_reactions, ∀ rs ∈ rxn.reactants ++ rxn.products,
    rs ∈ out.restingsets)

/-- The closure property claimed over the registry, stated with the
known-union-spurious collections exposed by the `restingsets` and
`condensed_reactions` accessors: every complex of any resting set of the
registry and of any detailed reaction is in the complex set, and every
resting set referenced by any condensed reaction (known or spurious) is
in the union of the known and spurious resting-set sets. -/
def registryClosure (s : System) : Prop :=
  (∀ rs ∈ s.restingsets_accessor, ∀ c ∈ rs.complexes,
    c ∈ s.complexes) ∧
  (∀ rxn ∈ s.detailed_reactions, ∀ c ∈ rxn.reactants ++ rxn.products,
    c ∈ s.complexes) ∧
  (∀ rxn ∈ s.condensed_reactions_accessor,
    ∀ rs ∈ rxn.reactants ++ rxn.products, rs ∈ s.restingsets_accessor)

instance (s : System) : Decidable (registryClosure s) := by
  unfold registryClosure
  exact inferInstance

/-! Small concrete entities used to evaluate the embedding on closed
inputs. -/

/-- A sample complex. -/
def cA : Complex := ⟨0, "A"⟩

/-- A second sample complex. -/
def cB : Complex := ⟨1, "B"⟩

/-- A sample resting set containing `cA`. -/
def rsA : RestingSet := ⟨0, "RA", [⟨0⟩], [cA]⟩

/-- A sample resting set containing `cB`. -/
def rsB : RestingSet := ⟨1, "RB", [⟨1⟩], [cB]⟩

/-- A bimolecular condensed reaction `RA + RB -> RA + RB`
(unproductive). -/
def rxnAB : CondensedReaction := ⟨0, [rsA, rsB], [rsA, rsB]⟩

/-- A unimolecular condensed reaction `RA -> RB`. -/
def rxnUni : CondensedReaction := ⟨1, [rsA], [rsB]⟩

/-- A trimolecular condensed reaction `RA + RB + RA -> RB`. -/
def rxnTri : CondensedReaction := ⟨2, [rsA, rsB, rsA], [rsB]⟩

/-! Membership characterizations of the set model. -/

theorem mem_setDiff {α : Type} [DecidableEq α] {a b : List α} {x : α} :
    x ∈ setDiff a b ↔ x ∈ a ∧ x ∉ b := by
  simp [setDiff]

theorem mem_setUnion {α : Type} [DecidableEq α] {a b : List α} {x : α} :
    x ∈ setUnion a b ↔ x ∈ a ∨ x ∈ b := by
  simp [setUnion]

theorem mem_statsKeys {α : Type} [DecidableEq α] {stats : List (α × Nat)}
    {x : α} : x ∈ statsKeys stats ↔ x ∈ stats.map Prod.fst := by
  simp [statsKeys]

theorem mem_givenCondensed {X : List CondensedReaction}
    {x : CondensedReaction} : x ∈ givenCondensed X ↔ x ∈ X := by
  simp [givenCondensed]

theorem mem_derivedRestingsets {R : List RestingSet}
    {X : List CondensedReaction} {x : RestingSet} :
    x ∈ derivedRestingsets R X ↔
      x ∈ R ∨ ∃ rxn ∈ X, x ∈ rxn.reactants ++ rxn.products := by
  simp [derivedRestingsets, givenCondensed, List.mem_flatMap]

theorem mem_derivedComplexes {C : List Complex} {R : List RestingSet}
    {D : List DetailedReaction} {X : List CondensedReaction} {c : Complex} :
    c ∈ derivedComplexes C R D X ↔
      c ∈ C ∨ (∃ rs ∈ derivedRestingsets R X, c ∈ rs.complexes) ∨
        ∃ d ∈ D, c ∈ d.reactants ++ d.products := by
  simp [derivedComplexes, List.mem_flatMap]

theorem mem_filterUnimolecular {params : KindaParams}
    {conds : List CondensedReaction} {x : CondensedReaction} :
    x ∈ filterUnimolecular params conds ↔
      x ∈ conds ∧ (params.enable_unimolecular_reactions = true ∨
        x.reactants.length = 2) := by
  rcases params with ⟨b⟩
  cases b <;> simp [filterUnimolecular]

/-! Field equations of `mkSystem`. -/

theorem mkSystem_condensed (params : KindaParams) (C : List Complex)
    (R : List RestingSet) (D : List DetailedReaction)
    (X : List CondensedReaction) (eo : Option EnumOut)
    (rsS : List (RestingSet × Nat)) (rxnS : List (CondensedReaction × Nat)) :
    (mkSystem params C R D X eo rsS rxnS).condensed_reactions =
      filterUnimolecular params (preFilterCondensed X eo) := rfl

theorem mkSystem_spurious_restingsets (params : KindaParams)
    (C : List Complex) (R : List RestingSet) (D : List DetailedReaction)
    (X : List CondensedReaction) (eo : Option EnumOut)
    (rsS : List (RestingSet × Nat)) (rxnS : List (CondensedReaction × Nat)) :
    (mkSystem params C R D X eo rsS rxnS).spurious_restingsets =
      setDiff (statsKeys rsS)
        (mkSystem params C R D X eo rsS rxnS).restingsets := rfl

theorem mkSystem_spurious_condensed (params : KindaParams)
    (C : List Complex) (R : List RestingSet) (D : List DetailedReaction)
    (X : List CondensedReaction) (eo : Option EnumOut)
    (rsS : List (RestingSet × Nat)) (rxnS : List (CondensedReaction × Nat)) :
    (mkSystem params C R D X eo rsS rxnS).spurious_condensed_reactions =
      setDiff (statsKeys rxnS)
        (mkSystem params C R D X eo rsS rxnS).condensed_reactions := rfl

theorem mkSystem_restingsets_none (params : KindaParams) (C : List Complex)
    (R : List RestingSet) (D : List DetailedReaction)
    (X : List CondensedReaction) (rsS : List (RestingSet × Nat))
    (rxnS : List (CondensedReaction × Nat)) :
    (mkSystem params C R D X none rsS rxnS).restingsets =
      derivedRestingsets R X := rfl

theorem mkSystem_complexes_none (params : KindaParams) (C : List Complex)
    (R : List RestingSet) (D : List DetailedReaction)
    (X : List CondensedReaction) (rsS : List (RestingSet × Nat))
    (rxnS : List (CondensedReaction × Nat)) :
    (mkSystem params C R D X none rsS rxnS).complexes =
      derivedComplexes C R D X := rfl

theorem mkSystem_detailed_none (params : KindaParams) (C : List Complex)
    (R : List RestingSet) (D : List DetailedReaction)
    (X : List CondensedReaction) (rsS : List (RestingSet × Nat))
    (rxnS : List (CondensedReaction × Nat)) :
    (mkSystem params C R D X none rsS rxnS).detailed_reactions =
      D.dedup := rfl

/-- C1: for every System constructed with statistics mappings whose key
sets are supersets of (or equal to) the known resting-set and
condensed-reaction sets, the known and spurious resting-set sets are
disjoint and their union equals the key set of the resting-set statistics
mapping; likewise for known and spurious condensed reactions with respect
to the reaction statistics mapping. -/
theorem claim1_partition (params : KindaParams) (C : List Complex)
    (R : List RestingSet) (D : List DetailedReaction)
    (X : List CondensedReaction) (eo : Option EnumOut)
    (rsS : List (RestingSet × Nat)) (rxnS : List (CondensedReaction × Nat))
    (hrs : ∀ r ∈ (mkSystem params C R D X eo rsS rxnS).restingsets,
      r ∈ statsKeys rsS)
    (hrxn : ∀ r ∈ (mkSystem params C R D X eo rsS rxnS).condensed_reactions,
      r ∈ statsKeys rxnS) :
    ((mkSystem params C R D X eo rsS rxnS).restingsets.toFinset ∩
        (mkSystem params C R D X eo rsS rxnS).spurious_restingsets.toFinset
        = ∅ ∧
      (mkSystem params C R D X eo rsS rxnS).restingsets.toFinset ∪
        (mkSystem params C R D X eo rsS rxnS).spurious_restingsets.toFinset
        = (statsKeys rsS).toFinset) ∧
    ((mkSystem params C R D X eo rsS rxnS).condensed_reactions.toFinset ∩
        (mkSystem params C R D X eo rsS
          rxnS).spurious_condensed_reactions.toFinset = ∅ ∧
      (mkSystem params C R D X eo rsS rxnS).condensed_reactions.toFinset ∪
        (mkSystem params C R D X eo rsS
          rxnS).spurious_condensed_reactions.toFinset
        = (statsKeys rxnS).toFinset) := by
  rw [mkSystem_spurious_restingsets, mkSystem_spurious_condensed]
  refine ⟨⟨?_, ?_⟩, ?_, ?_⟩
  · ext x
    simp only [Finset.mem_inter, List.mem_toFinset, mem_setDiff,
      Finset.not_mem_empty, iff_false]
    rintro ⟨h1, -, h2⟩
    exact h2 h1
  · ext x
    simp only [Finset.mem_union, List.mem_toFinset, mem_setDiff]
    constructor
    · rintro (h | ⟨h, -⟩)
      · exact hrs x h
      · exact h
    · intro hx
      by_cases hk : x ∈ (mkSystem params C R D X eo rsS rxnS).restingsets
      · exact Or.inl hk
      · exact Or.inr ⟨hx, hk⟩
  · ext x
    simp only [Finset.mem_inter, List.mem_toFinset, mem_setDiff,
      Finset.not_mem_empty, iff_false]
    rintro ⟨h1, -, h2⟩
    exact h2 h1
  · ext x
    simp only [Finset.mem_union, List.mem_toFinset, mem_setDiff]
    constructor
    · rintro (h | ⟨h, -⟩)
      · exact hrxn x h
      · exact h
    · intro hx
      by_cases hk :
          x ∈ (mkSystem params C R D X eo rsS rxnS).condensed_reactions
      · exact Or.inl hk
      · exact Or.inr ⟨hx, hk⟩

/-- Witness for C1 at a concrete system: one known condensed reaction
`RA + RB -> RA + RB`, statistics keys `{RA, RB}` and `{rxnAB}`. -/
theorem claim1_partition_witness :
    (∀ r ∈ (mkSystem ⟨true⟩ [] [] [] [rxnAB] none [(rsA, 0), (rsB, 1)]
        [(rxnAB, 5)]).restingsets, r ∈ statsKeys [(rsA, 0), (rsB, 1)]) ∧
    (∀ r ∈ (mkSystem ⟨true⟩ [] [] [] [rxnAB] none [(rsA, 0), (rsB, 1)]
        [(rxnAB, 5)]).condensed_reactions,
      r ∈ statsKeys [(rxnAB, 5)]) ∧
    (((mkSystem ⟨true⟩ [] [] [] [rxnAB] none [(rsA, 0), (rsB, 1)]
          [(rxnAB, 5)]).restingsets.toFinset ∩
        (mkSystem ⟨true⟩ [] [] [] [rxnAB] none [(rsA, 0), (rsB, 1)]
          [(rxnAB, 5)]).spurious_restingsets.toFinset = ∅ ∧
      (mkSystem ⟨true⟩ [] [] [] [rxnAB] none [(rsA, 0), (rsB, 1)]
          [(rxnAB, 5)]).restingsets.toFinset ∪
        (mkSystem ⟨true⟩ [] [] [] [rxnAB] none [(rsA, 0), (rsB, 1)]
          [(rxnAB, 5)]).spurious_restingsets.toFinset
        = (statsKeys [(rsA, 0), (rsB, 1)]).toFinset) ∧
    ((mkSystem ⟨true⟩ [] [] [] [rxnAB] none [(rsA, 0), (rsB, 1)]
          [(rxnAB, 5)]).condensed_reactions.toFinset ∩
        (mkSystem ⟨true⟩ [] [] [] [rxnAB] none [(rsA, 0), (rsB, 1)]
          [(rxnAB, 5)]).spurious_condensed_reactions.toFinset = ∅ ∧
      (mkSystem ⟨true⟩ [] [] [] [rxnAB] none [(rsA, 0), (rsB, 1)]
          [(rxnAB, 5)]).condensed_reactions.toFinset ∪
        (mkSystem ⟨true⟩ [] [] [] [rxnAB] none [(rsA, 0), (rsB, 1)]
          [(rxnAB, 5)]).spurious_condensed_reactions.toFinset
        = (statsKeys [(rxnAB, 5)]).toFinset)) :=
  ⟨by decide, by decide,
    claim1_partition ⟨true⟩ [] [] [] [rxnAB] none [(rsA, 0), (rsB, 1)]
      [(rxnAB, 5)] (by decide) (by decide)⟩

/-- C2 fails as stated: a System whose statistics mapping mentions a
spurious resting set (`rsB`, never given nor derived) violates the
closure property extended to the known-union-spurious collections —
`rsB`'s complex `cB` is not in the System's complex set, because
construction derives complexes only from the given/known entities
(kinda.py lines 52-55) and never revisits them after the spurious
partition (lines 93-94). -/
theorem claim2_counterexample :
    ¬ registryClosure (mkSystem ⟨true⟩ [cA] [] [] [] none [(rsB, 0)] []) :=
  by decide

/-- C2 (amended): closure holds for the known collections — every complex
of any known resting set and of any detailed reaction is in the complex
set, and every resting set referenced by any known condensed reaction is
in the known resting-set set; for the enumeration path this needs the
spec's closure requirement on the enumerator's output. -/
theorem claim2_closure_known (params : KindaParams) (C : List Complex)
    (R : List RestingSet) (D : List DetailedReaction)
    (X : List CondensedReaction) (eo : Option EnumOut)
    (rsS : List (RestingSet × Nat)) (rxnS : List (CondensedReaction × Nat))
    (hclosed : ∀ out, eo = some out → EnumOutClosed out) :
    (∀ rs ∈ (mkSystem params C R D X eo rsS rxnS).restingsets,
      ∀ c ∈ rs.complexes,
        c ∈ (mkSystem params C R D X eo rsS rxnS).complexes) ∧
    (∀ rxn ∈ (mkSystem params C R D X eo rsS rxnS).detailed_reactions,
      ∀ c ∈ rxn.reactants ++ rxn.products,
        c ∈ (mkSystem params C R D X eo rsS rxnS).complexes) ∧
    (∀ rxn ∈ (mkSystem params C R D X eo rsS rxnS).condensed_reactions,
      ∀ rs ∈ rxn.reactants ++ rxn.products,
        rs ∈ (mkSystem params C R D X eo rsS rxnS).restingsets) := by
  cases eo with
  | none =>
    refine ⟨?_, ?_, ?_⟩
    · intro rs hrs c hc
      rw [mkSystem_complexes_none, mem_derivedComplexes]
      exact Or.inr (Or.inl ⟨rs, hrs, hc⟩)
    · intro rxn hrxn c hc
      rw [mkSystem_detailed_none, List.mem_dedup] at hrxn
      rw [mkSystem_complexes_none, mem_derivedComplexes]
      exact Or.inr (Or.inr ⟨rxn, hrxn, hc⟩)
    · intro rxn hrxn rs hrs
      rw [mkSystem_condensed, mem_filterUnimolecular] at hrxn
      have hX : rxn ∈ X := by
        have := hrxn.1
        rwa [preFilterCondensed, mem_givenCondensed] at this
      rw [mkSystem_restingsets_none, mem_derivedRestingsets]
      exact Or.inr ⟨rxn, hX, hrs⟩
  | some out =>
    obtain ⟨hrsc, hdetc, hcondc⟩ := hclosed out rfl
    refine ⟨?_, ?_, ?_⟩
    · intro rs hrs c hc
      have : rs ∈ out.restingsets := by
        rwa [show (mkSystem params C R D X (some out) rsS rxnS).restingsets
            = out.restingsets.dedup from rfl, List.mem_dedup] at hrs
      show c ∈ out.complexes.dedup
      rw [List.mem_dedup]
      exact hrsc rs this c hc
    · intro rxn hrxn c hc
      have : rxn ∈ out.reactions := by
        rwa [show (mkSystem params C R D X (some out) rsS
              rxnS).detailed_reactions = out.reactions.dedup from rfl,
          List.mem_dedup] at hrxn
      show c ∈ out.complexes.dedup
      rw [List.mem_dedup]
      exact hdetc rxn this c hc
    · intro rxn hrxn rs hrs
      rw [mkSystem_condensed, mem_filterUnimolecular] at hrxn
      have : rxn ∈ out.restingset_reactions := by
        have := hrxn.1
        rwa [preFilterCondensed, List.mem_dedup] at this
      show rs ∈ out.restingsets.dedup
      rw [List.mem_dedup]
      exact hcondc rxn this rs hrs

/-- Witness for C2 (amended) at a concrete system built with enumeration
disabled from one resting set and one condensed reaction. -/
theorem claim2_closure_known_witness :
    (∀ rs ∈ (mkSystem ⟨true⟩ [] [rsA] [] [rxnAB] none [] []).restingsets,
      ∀ c ∈ rs.complexes,
        c ∈ (mkSystem ⟨true⟩ [] [rsA] [] [rxnAB] none [] []).complexes) ∧
    (∀ rxn ∈ (mkSystem ⟨true⟩ [] [rsA] [] [rxnAB] none []
        []).detailed_reactions,
      ∀ c ∈ rxn.reactants ++ rxn.products,
        c ∈ (mkSystem ⟨true⟩ [] [rsA] [] [rxnAB] none [] []).complexes) ∧
    (∀ rxn ∈ (mkSystem ⟨true⟩ [] [rsA] [] [rxnAB] none []
        []).condensed_reactions,
      ∀ rs ∈ rxn.reactants ++ rxn.products,
        rs ∈ (mkSystem ⟨true⟩ [] [rsA] [] [rxnAB] none [] []).restingsets) :=
  claim2_closure_known ⟨true⟩ [] [rsA] [] [rxnAB] none [] []
    (fun _ h => nomatch h)

/-- C4: when the configuration disables unimolecular reactions, the known
condensed-reaction set contains no reaction whose reactant count differs
from 2; the dropped reactions are exactly those of the pre-filter set
whose reactant count is not 2; and the complexes, resting sets and
detailed reactions are the same as with the filter disabled by
configuration. -/
theorem claim4_unimolecular_filter (params : KindaParams)
    (C : List Complex) (R : List RestingSet) (D : List DetailedReaction)
    (X : List CondensedReaction) (eo : Option EnumOut)
    (rsS : List (RestingSet × Nat)) (rxnS : List (CondensedReaction × Nat))
    (h : params.enable_unimolecular_reactions = false) :
    (∀ r ∈ (mkSystem params C R D X eo rsS rxnS).condensed_reactions,
      r.reactants.length = 2) ∧
    (∀ r ∈ (mkSystem params C R D X eo rsS rxnS).condensed_reactions,
      r ∈ preFilterCondensed X eo) ∧
    (∀ r ∈ preFilterCondensed X eo,
      (r ∉ (mkSystem params C R D X eo rsS rxnS).condensed_reactions ↔
        r.reactants.length ≠ 2)) ∧
    (mkSystem params C R D X eo rsS rxnS).complexes =
      (mkSystem ⟨true⟩ C R D X eo rsS rxnS).complexes ∧
    (mkSystem params C R D X eo rsS rxnS).restingsets =
      (mkSystem ⟨true⟩ C R D X eo rsS rxnS).restingsets ∧
    (mkSystem params C R D X eo rsS rxnS).detailed_reactions =
      (mkSystem ⟨true⟩ C R D X eo rsS rxnS).detailed_reactions := by
  refine ⟨?_, ?_, ?_, ?_, ?_, ?_⟩
  · intro r hr
    rw [mkSystem_condensed, mem_filterUnimolecular, h] at hr
    rcases hr.2 with h2 | h2
    · exact absurd h2 (by simp)
    · exact h2
  · intro r hr
    rw [mkSystem_condensed, mem_filterUnimolecular] at hr
    exact hr.1
  · intro r hr
    rw [mkSystem_condensed, mem_filterUnimolecular, h]
    constructor
    · intro hnot
      intro h2
      exact hnot ⟨hr, Or.inr h2⟩
    · rintro h2 ⟨-, hfalse | h2c⟩
      · exact absurd hfalse (by simp)
      · exact h2 h2c
  · cases eo <;> rfl
  · cases eo <;> rfl
  · cases eo <;> rfl

/-- Witness for C4: unimolecular reactions disabled, pre-filter reactions
`{rxnAB (2 reactants), rxnUni (1 reactant), rxnTri (3 reactants)}`. -/
theorem claim4_unimolecular_filter_witness :
    (⟨false⟩ : KindaParams).enable_unimolecular_reactions = false ∧
    ((∀ r ∈ (mkSystem ⟨false⟩ [] [] [] [rxnAB, rxnUni, rxnTri] none []
        []).condensed_reactions, r.reactants.length = 2) ∧
    (∀ r ∈ (mkSystem ⟨false⟩ [] [] [] [rxnAB, rxnUni, rxnTri] none []
        []).condensed_reactions,
      r ∈ preFilterCondensed [rxnAB, rxnUni, rxnTri] none) ∧
    (∀ r ∈ preFilterCondensed [rxnAB, rxnUni, rxnTri] none,
      (r ∉ (mkSystem ⟨false⟩ [] [] [] [rxnAB, rxnUni, rxnTri] none []
          []).condensed_reactions ↔ r.reactants.length ≠ 2)) ∧
    (mkSystem ⟨false⟩ [] [] [] [rxnAB, rxnUni, rxnTri] none []
        []).complexes =
      (mkSystem ⟨true⟩ [] [] [] [rxnAB, rxnUni, rxnTri] none []
        []).complexes ∧
    (mkSystem ⟨false⟩ [] [] [] [rxnAB, rxnUni, rxnTri] none []
        []).restingsets =
      (mkSystem ⟨true⟩ [] [] [] [rxnAB, rxnUni, rxnTri] none []
        []).restingsets ∧
    (mkSystem ⟨false⟩ [] [] [] [rxnAB, rxnUni, rxnTri] none []
        []).detailed_reactions =
      (mkSystem ⟨true⟩ [] [] [] [rxnAB, rxnUni, rxnTri] none []
        []).detailed_reactions) :=
  ⟨rfl, claim4_unimolecular_filter ⟨false⟩ [] [] []
    [rxnAB, rxnUni, rxnTri] none [] [] rfl⟩

/-- C5 fails as stated: with unimolecular reactions disabled, the filter
keeps only reactions with exactly 2 reactants (kinda.py line 78), so the
trimolecular reaction `rxnTri` (3 reactants, hence "2 or more") is
removed, contradicting "every condensed reaction with 2 or more reactants
is retained" and "the removed reactions are exactly those with fewer than
2 reactants". -/
theorem claim5_counterexample :
    2 ≤ rxnTri.reactants.length ∧
    rxnTri ∈ preFilterCondensed [rxnAB, rxnUni, rxnTri] none ∧
    rxnTri ∉ (mkSystem ⟨false⟩ [] [] [] [rxnAB, rxnUni, rxnTri] none []
      []).condensed_reactions := by decide

/-- C5 (amended): when unimolecular reactions are disabled, a pre-filter
condensed reaction is retained iff its reactant count is exactly 2, so
the removed reactions are exactly those with reactant count different
from 2. -/
theorem claim5_retained_iff_bimolecular (params : KindaParams)
    (C : List Complex) (R : List RestingSet) (D : List DetailedReaction)
    (X : List CondensedReaction) (eo : Option EnumOut)
    (rsS : List (RestingSet × Nat)) (rxnS : List (CondensedReaction × Nat))
    (h : params.enable_unimolecular_reactions = false) :
    ∀ r ∈ preFilterCondensed X eo,
      (r ∈ (mkSystem params C R D X eo rsS rxnS).condensed_reactions ↔
        r.reactants.length = 2) := by
  intro r hr
  rw [mkSystem_condensed, mem_filterUnimolecular, h]
  constructor
  · rintro ⟨-, hfalse | h2⟩
    · exact absurd hfalse (by simp)
    · exact h2
  · intro h2
    exact ⟨hr, Or.inr h2⟩

/-- Witness for C5 (amended): `rxnAB` (2 reactants) is retained, and the
hypothesis and pre-filter membership are discharged concretely. -/
theorem claim5_retained_iff_bimolecular_witness :
    (⟨false⟩ : KindaParams).enable_unimolecular_reactions = false ∧
    (∀ r ∈ preFilterCondensed [rxnAB, rxnUni, rxnTri] none,
      (r ∈ (mkSystem ⟨false⟩ [] [] [] [rxnAB, rxnUni, rxnTri] none []
          []).condensed_reactions ↔ r.reactants.length = 2)) :=
  ⟨rfl, claim5_retained_iff_bimolecular ⟨false⟩ [] [] []
    [rxnAB, rxnUni, rxnTri] none [] [] rfl⟩

/-- C6: rebuilding a System from the reconciled known output of a System
built with enumeration disabled (its complexes, resting sets, detailed
reactions and condensed reactions as the given inputs, enumeration
disabled, same configuration) yields identical complex, resting-set,
detailed-reaction and condensed-reaction sets — no set grows. -/
theorem claim6_idempotent_rebuild (params : KindaParams)
    (C : List Complex) (R : List RestingSet) (D : List DetailedReaction)
    (X : List CondensedReaction) (rsS rsS2 : List (RestingSet × Nat))
    (rxnS rxnS2 : List (CondensedReaction × Nat)) :
    (mkSystem params (mkSystem params C R D X none rsS rxnS).complexes
        (mkSystem params C R D X none rsS rxnS).restingsets
        (mkSystem params C R D X none rsS rxnS).detailed_reactions
        (mkSystem params C R D X none rsS rxnS).condensed_reactions
        none rsS2 rxnS2).complexes.toFinset =
      (mkSystem params C R D X none rsS rxnS).complexes.toFinset ∧
    (mkSystem params (mkSystem params C R D X none rsS rxnS).complexes
        (mkSystem params C R D X none rsS rxnS).restingsets
        (mkSystem params C R D X none rsS rxnS).detailed_reactions
        (mkSystem params C R D X none rsS rxnS).condensed_reactions
        none rsS2 rxnS2).restingsets.toFinset =
      (mkSystem params C R D X none rsS rxnS).restingsets.toFinset ∧
    (mkSystem params (mkSystem params C R D X none rsS rxnS).complexes
        (mkSystem params C R D X none rsS rxnS).restingsets
        (mkSystem params C R D X none rsS rxnS).detailed_reactions
        (mkSystem params C R D X none rsS rxnS).condensed_reactions
        none rsS2 rxnS2).detailed_reactions.toFinset =
      (mkSystem params C R D X none rsS rxnS).detailed_reactions.toFinset ∧
    (mkSystem params (mkSystem params C R D X none rsS rxnS).complexes
        (mkSystem params C R D X none rsS rxnS).restingsets
        (mkSystem params C R D X none rsS rxnS).detailed_reactions
        (mkSystem params C R D X none rsS rxnS).condensed_reactions
        none rsS2 rxnS2).condensed_reactions.toFinset =
      (mkSystem params C R D X none rsS rxnS).condensed_reactions.toFinset
    := by
  set s : System := mkSystem params C R D X none rsS rxnS with hs
  set s2 : System := mkSystem params s.complexes s.restingsets
    s.detailed_reactions s.condensed_reactions none rsS2 rxnS2 with hs2
  have hcondX : ∀ r : CondensedReaction, r ∈ s.condensed_reactions →
      r ∈ X ∧ (params.enable_unimolecular_reactions = true ∨
        r.reactants.length = 2) := by
    intro r hr
    rw [hs, mkSystem_condensed, mem_filterUnimolecular] at hr
    simpa [preFilterCondensed, mem_givenCondensed] using hr
  have hc2 : ∀ r : CondensedReaction,
      r ∈ s2.condensed_reactions ↔ r ∈ s.condensed_reactions := by
    intro r
    rw [hs2, mkSystem_condensed, mem_filterUnimolecular]
    constructor
    · rintro ⟨hr, -⟩
      simpa [preFilterCondensed, mem_givenCondensed] using hr
    · intro hr
      refine ⟨by simpa [preFilterCondensed, mem_givenCondensed] using hr,
        (hcondX r hr).2⟩
  have hr2 : ∀ x : RestingSet,
      x ∈ s2.restingsets ↔ x ∈ s.restingsets := by
    intro x
    rw [hs2, mkSystem_restingsets_none, mem_derivedRestingsets]
    constructor
    · rintro (hx | ⟨rxn, hrxn, hpart⟩)
      · exact hx
      · rw [hs, mkSystem_restingsets_none, mem_derivedRestingsets]
        exact Or.inr ⟨rxn, (hcondX rxn hrxn).1, hpart⟩
    · intro hx
      exact Or.inl hx
  have hd2 : ∀ d : DetailedReaction,
      d ∈ s2.detailed_reactions ↔ d ∈ s.detailed_reactions := by
    intro d
    rw [hs2, mkSystem_detailed_none, List.mem_dedup]
  have hcx2 : ∀ c : Complex, c ∈ s2.complexes ↔ c ∈ s.complexes := by
    intro c
    rw [hs2, mkSystem_complexes_none, mem_derivedComplexes]
    constructor
    · rintro (hc | ⟨rs, hrs, hc⟩ | ⟨d, hd, hc⟩)
      · exact hc
      · have hrs2 : rs ∈ s2.restingsets := by
          rw [hs2, mkSystem_restingsets_none]
          exact hrs
        have hrs' : rs ∈ s.restingsets := (hr2 rs).1 hrs2
        rw [hs, mkSystem_restingsets_none] at hrs'
        rw [hs, mkSystem_complexes_none, mem_derivedComplexes]
        exact Or.inr (Or.inl ⟨rs, hrs', hc⟩)
      · have hD : d ∈ D := by
          rw [hs, mkSystem_detailed_none, List.mem_dedup] at hd
          exact hd
        rw [hs, mkSystem_complexes_none, mem_derivedComplexes]
        exact Or.inr (Or.inr ⟨d, hD, hc⟩)
    · intro hc
      exact Or.inl hc
  refine ⟨?_, ?_, ?_, ?_⟩
  · ext c
    simpa [List.mem_toFinset] using hcx2 c
  · ext x
    simpa [List.mem_toFinset] using hr2 x
  · ext d
    simpa [List.mem_toFinset] using hd2 d
  · ext r
    simpa [List.mem_toFinset] using hc2 r

/-- C3: `get_reactions` returns exactly the reactions of the base set
selected by `spurious` (true: spurious only; false: known only; None:
union) that pass the `unproductive` test (`has_reactants(products) ∧
has_products(reactants)`, kept when true, its negation when false), the
`arity` test (reactant count equals it, when not None), and the final
`has_reactants(reactants) ∧ has_products(products)` superset filter;
empty argument lists always pass the superset test, and absent (`none`)
arguments apply no filtering. -/
theorem claim3_get_reactions_spec (s : System)
    (reactants products : List RestingSet) (arity : Option Nat)
    (unproductive spurious : Option Bool) (r : CondensedReaction) :
    (r ∈ s.get_reactions reactants products arity unproductive spurious ↔
      (match spurious with
       | some true => r ∈ s.spurious_condensed_reactions
       | some false => r ∈ s.condensed_reactions
       | none => r ∈ s.spurious_condensed_reactions ∨
           r ∈ s.condensed_reactions) ∧
      (match unproductive with
       | some true => r.has_reactants r.products = true ∧
           r.has_products r.reactants = true
       | some false => ¬(r.has_reactants r.products = true ∧
           r.has_products r.reactants = true)
       | none => True) ∧
      (match arity with
       | some a => r.reactants.length = a
       | none => True) ∧
      r.has_reactants reactants = true ∧
      r.has_products products = true) ∧
    r.has_reactants [] = true ∧ r.has_products [] = true := by
  refine ⟨?_, rfl, rfl⟩
  unfold System.get_reactions
  rcases spurious with - | b
  all_goals try cases b
  all_goals rcases unproductive with - | u
  all_goals try cases u
  all_goals rcases arity with - | a
  all_goals
    simp only [List.mem_filter, mem_setUnion, Bool.and_eq_true,
      Bool.not_eq_true', Bool.not_eq_true, decide_eq_true_eq,
      Bool.eq_false_iff, ne_eq]
  all_goals tauto

theorem singularReport_nil {α : Type} :
    singularReport ([] : List α) = (none, Report.notFound) := rfl

theorem singularReport_of_one_lt {α : Type} (l : List α)
    (h : 1 < l.length) :
    singularReport l = (l.head?, Report.multiple) := by
  match l with
  | [] => simp at h
  | [x] => simp at h
  | x :: y :: t => rfl

/-- C7: each singular accessor returns `None` and reports a not-found
condition on zero matches (no exception: the embedding is total); on more
than one match it reports a warning and still returns the first element
of the match list; `get_stats` on an entity with no statistics record
reports not-found and returns `None`. -/
theorem claim7_singular_accessors (s : System)
    (reactants products : List RestingSet) (arity : Option Nat)
    (unproductive spurious : Option Bool) (complex : Option Complex)
    (strands : List Strand) (name complex_name : Option String)
    (spurious2 : Option Bool) (cname : Option String) (rs0 : RestingSet)
    (rxn0 : CondensedReaction) :
    (s.get_reactions reactants products arity unproductive spurious = [] →
      s.get_reaction reactants products arity unproductive spurious =
        (none, Report.notFound)) ∧
    (1 < (s.get_reactions reactants products arity unproductive
        spurious).length →
      s.get_reaction reactants products arity unproductive spurious =
        ((s.get_reactions reactants products arity unproductive
          spurious).head?, Report.multiple)) ∧
    (s.get_restingsets complex strands name complex_name spurious2 = [] →
      s.get_restingset complex strands name complex_name spurious2 =
        (none, Report.notFound)) ∧
    (1 < (s.get_restingsets complex strands name complex_name
        spurious2).length →
      s.get_restingset complex strands name complex_name spurious2 =
        ((s.get_restingsets complex strands name complex_name
          spurious2).head?, Report.multiple)) ∧
    (s.get_complexes cname = [] →
      s.get_complex cname = (none, Report.notFound)) ∧
    (1 < (s.get_complexes cname).length →
      s.get_complex cname =
        ((s.get_complexes cname).head?, Report.multiple)) ∧
    (assocLookup s.rs_to_stats rs0 = none →
      s.get_stats (Sum.inl rs0) = (none, Report.notFound)) ∧
    (assocLookup s.rxn_to_stats rxn0 = none →
      s.get_stats (Sum.inr rxn0) = (none, Report.notFound)) := by
  refine ⟨?_, ?_, ?_, ?_, ?_, ?_, ?_, ?_⟩
  · intro h
    rw [System.get_reaction, h]
    exact singularReport_nil
  · intro h
    rw [System.get_reaction, singularReport_of_one_lt _ h]
  · intro h
    rw [System.get_restingset, h]
    exact singularReport_nil
  · intro h
    rw [System.get_restingset, singularReport_of_one_lt _ h]
  · intro h
    rw [System.get_complex, h]
    exact singularReport_nil
  · intro h
    rw [System.get_complex, singularReport_of_one_lt _ h]
  · intro h
    rw [System.get_stats, h]
  · intro h
    rw [System.get_stats, h]

/-- Witness for C7: the zero-match cases on an empty System, the
multiple-match cases on a System with two complexes, two resting sets and
two known condensed reactions. -/
theorem claim7_singular_accessors_witness :
    ((mkSystem ⟨true⟩ [] [] [] [] none [] []).get_reaction [] [] none none
      none = (none, Report.notFound)) ∧
    ((mkSystem ⟨true⟩ [] [] [] [] none [] []).get_restingset none [] none
      none (some false) = (none, Report.notFound)) ∧
    ((mkSystem ⟨true⟩ [] [] [] [] none [] []).get_complex none =
      (none, Report.notFound)) ∧
    ((mkSystem ⟨true⟩ [] [] [] [] none [] []).get_stats (Sum.inl rsA) =
      (none, Report.notFound)) ∧
    ((mkSystem ⟨true⟩ [] [] [] [] none [] []).get_stats (Sum.inr rxnAB) =
      (none, Report.notFound)) ∧
    ((mkSystem ⟨true⟩ [cA, cB] [rsA, rsB] [] [rxnAB, rxnUni] none []
        []).get_reaction [] [] none none (some false) =
      (((mkSystem ⟨true⟩ [cA, cB] [rsA, rsB] [] [rxnAB, rxnUni] none []
        []).get_reactions [] [] none none (some false)).head?,
        Report.multiple)) ∧
    ((mkSystem ⟨true⟩ [cA, cB] [rsA, rsB] [] [rxnAB, rxnUni] none []
        []).get_restingset none [] none none (some false) =
      (((mkSystem ⟨true⟩ [cA, cB] [rsA, rsB] [] [rxnAB, rxnUni] none []
        []).get_restingsets none [] none none (some false)).head?,
        Report.multiple)) ∧
    ((mkSystem ⟨true⟩ [cA, cB] [rsA, rsB] [] [rxnAB, rxnUni] none []
        []).get_complex none =
      (((mkSystem ⟨true⟩ [cA, cB] [rsA, rsB] [] [rxnAB, rxnUni] none []
        []).get_complexes none).head?, Report.multiple)) :=
  ⟨(claim7_singular_accessors (mkSystem ⟨true⟩ [] [] [] [] none [] []) []
      [] none none none none [] none none (some false) none rsA rxnAB).1
      (by decide),
    (claim7_singular_accessors (mkSystem ⟨true⟩ [] [] [] [] none [] []) []
      [] none none none none [] none none (some false) none rsA
      rxnAB).2.2.1 (by decide),
    (claim7_singular_accessors (mkSystem ⟨true⟩ [] [] [] [] none [] []) []
      [] none none none none [] none none (some false) none rsA
      rxnAB).2.2.2.2.1 (by decide),
    (claim7_singular_accessors (mkSystem ⟨true⟩ [] [] [] [] none [] []) []
      [] none none none none [] none none (some false) none rsA
      rxnAB).2.2.2.2.2.2.1 (by decide),
    (claim7_singular_accessors (mkSystem ⟨true⟩ [] [] [] [] none [] []) []
      [] none none none none [] none none (some false) none rsA
      rxnAB).2.2.2.2.2.2.2 (by decide),
    (claim7_singular_accessors (mkSystem ⟨true⟩ [cA, cB] [rsA, rsB] []
      [rxnAB, rxnUni] none [] []) [] [] none none (some false) none []
      none none (some false) none rsA rxnAB).2.1 (by decide),
    (claim7_singular_accessors (mkSystem ⟨true⟩ [cA, cB] [rsA, rsB] []
      [rxnAB, rxnUni] none [] []) [] [] none none (some false) none []
      none none (some false) none rsA rxnAB).2.2.2.1 (by decide),
    (claim7_singular_accessors (mkSystem ⟨true⟩ [cA, cB] [rsA, rsB] []
      [rxnAB, rxnUni] none [] []) [] [] none none (some false) none []
      none none (some false) none rsA rxnAB).2.2.2.2.2.1 (by decide)⟩

/-- C8: every query operation, embedded as a state transformer whose
post-state is the translation of the method body (which contains no
assignment to any attribute of `self`), leaves the System — all entity
sets and both statistics mappings — unchanged. -/
theorem claim8_queries_pure (s : System)
    (reactants products : List RestingSet) (arity : Option Nat)
    (unproductive spurious : Option Bool) (complex : Option Complex)
    (strands : List Strand) (name complex_name : Option String)
    (spurious2 : Option Bool) (cname cname2 : Option String)
    (obj : Entity) :
    (s.get_reactionsM reactants products arity unproductive spurious).2
      = s ∧
    (s.get_reactionM reactants products arity unproductive spurious).2
      = s ∧
    (s.get_restingsetsM complex strands name complex_name spurious2).2
      = s ∧
    (s.get_restingsetM complex strands name complex_name spurious2).2
      = s ∧
    (s.get_complexesM cname).2 = s ∧
    (s.get_complexM cname2).2 = s ∧
    (s.get_statsM obj).2 = s :=
  ⟨rfl, rfl, rfl, rfl, rfl, rfl, rfl⟩

/-- C9: `format_rate_units` succeeds exactly when the time unit is one of
s/m/h and the molarity unit one of M/mM/uM/nM, returning a scaled rate;
it raises (`Except.error`) exactly when either unit is outside its
supported set. -/
theorem claim9_format_rate_units (rate : ℚ) (arity : Nat × Nat)
    (molarity time : String) :
    ((∃ q, format_rate_units rate arity molarity time = Except.ok q) ↔
      ((time = "s" ∨ time = "m" ∨ time = "h") ∧
        (molarity = "M" ∨ molarity = "mM" ∨ molarity = "uM" ∨
          molarity = "nM"))) ∧
    (format_rate_units rate arity molarity time = Except.error () ↔
      ¬((time = "s" ∨ time = "m" ∨ time = "h") ∧
        (molarity = "M" ∨ molarity = "mM" ∨ molarity = "uM" ∨
          molarity = "nM"))) := by
  unfold format_rate_units
  by_cases h1 : time = "s" <;> by_cases h2 : time = "m" <;>
    by_cases h3 : time = "h" <;> by_cases h4 : molarity = "M" <;>
    by_cases h5 : molarity = "mM" <;> by_cases h6 : molarity = "uM" <;>
    by_cases h7 : molarity = "nM" <;>
    simp [h1, h2, h3, h4, h5, h6, h7]

/-- C10: the depletion table of `write_pil` (reached when `unproductive`
is `None`) succeeds iff for every ordered pair of known resting sets the
query `get_reactions(unproductive=True, reactants=[rms1, rms2])` (with
its defaults `arity = 2`, `spurious = None`, `products = []`) returns
exactly one reaction; whenever some pair yields zero or several matches,
it fails with an `AssertionError` rather than the query engine's
non-fatal reporting. -/
theorem claim10_write_pil_assertion (s : System) :
    (write_pil_depletion_check s none = Except.ok () ↔
      ∀ r1 ∈ s.get_restingsets none [] none none (some false),
        ∀ r2 ∈ s.get_restingsets none [] none none (some false),
          (s.get_reactions [r1, r2] [] (some 2) (some true) none).length
            = 1) ∧
    (write_pil_depletion_check s none = Except.error "AssertionError" ↔
      ¬∀ r1 ∈ s.get_restingsets none [] none none (some false),
        ∀ r2 ∈ s.get_restingsets none [] none none (some false),
          (s.get_reactions [r1, r2] [] (some 2) (some true) none).length
            = 1) := by
  simp only [write_pil_depletion_check]
  split_ifs with h
  · simp only [List.all_eq_true, decide_eq_true_eq] at h
    simp [h]
    exact h
  · simp only [List.all_eq_true, decide_eq_true_eq] at h
    simp [h]

end KinDA
